import Mathlib

/-
Verification of the github-interview-request-agent repository.

Shallow embedding of the two request-handling entry points:
  * `createGitHubIssueExecute` embeds the `execute` function of
    `createGitHubIssueTool` in src/agents/github-interview-agent/index.ts.
    The environment variable GITHUB_TOKEN is passed in as an `Option String`
    (none models an unset variable); the Octokit issue-creation endpoint is
    passed in as a function `IssueApi`; a thrown JavaScript exception is
    modelled as `Except.error` carrying the error message; the network side
    effect is made observable by also returning the list of API calls issued.
  * `Agent` embeds the default exported handler of the same file. The model
    inference (`generateText`) is passed in as a function from the prompt to
    either a thrown error (`Except.error`) or a result record `GenResult`;
    the calls made to the model are made observable by returning the list of
    prompts sent alongside the response text.
  * `relayMessages` / `relayAgent` embed the second entry point (the simple
    completion relay).
-/

namespace GitHubInterviewAgent

/-- Truthiness of a nullable JavaScript string as evaluated in a boolean
context: `null`/`undefined` (modelled as `none`) and the empty string are
falsy, every other string is truthy. -/
def truthy : Option String → Bool
  | none => false
  | some s => !s.data.isEmpty

/-- Worker for `splitSlash`: walks the characters, accumulating the current
(reversed) segment. -/
def splitSlashGo : List Char → List Char → List String
  | [], acc => [String.mk acc.reverse]
  | c :: cs, acc =>
      if c = '/' then String.mk acc.reverse :: splitSlashGo cs []
      else splitSlashGo cs (c :: acc)

/-- Embedding of JavaScript `String.prototype.split` with the one-character
separator "/" (the only use in the source, `repository.split("/")`).
Splitting the empty string yields `[""]`, trailing separators yield trailing
empty segments, matching the JavaScript semantics for a non-empty separator. -/
def splitSlash (s : String) : List String :=
  splitSlashGo s.data []

/-- Structured arguments the model passes to the create-issue tool
(`parameters` of `createGitHubIssueTool`). -/
structure ToolArgs where
  repository : String
  title : String
  body : String
deriving Repr, DecidableEq

/-- Outcome object returned by the tool handler: success flag, optional
issue URL, human-readable message, optional error string. An absent field of
the JavaScript object is `none`. -/
structure ToolOutcome where
  success : Bool
  url : Option String
  message : String
  error : Option String
deriving Repr, DecidableEq

/-- One call issued to the issue-creation REST endpoint
(`octokit.rest.issues.create({owner, repo, title, body})`). -/
structure ApiCall where
  owner : String
  repo : String
  title : String
  body : String
deriving Repr, DecidableEq

/-- The external issue-creation endpoint: yields the created issue html_url,
or raises an error whose message is the carried string. -/
def IssueApi := ApiCall → Except String String

/-- Message of the error thrown when GITHUB_TOKEN is unset. -/
def githubTokenMissingMsg : String :=
  "GitHub token is not configured. Please set the GITHUB_TOKEN environment variable."

/-- Message of the error thrown on a malformed repository identifier. -/
def invalidRepoFormatMsg : String :=
  "Invalid repository format. Please use the format: owner/repo"

/-- Embedding of `createGitHubIssueTool.execute`. Returns the outcome
(`Except.error` when the function throws past its own boundary, which the
source does for a falsy GITHUB_TOKEN since that check precedes the
try/catch), together with the list of API calls issued. The malformed
repository throw happens inside the try block, so it is caught by the
catch clause and converted to a returned failure outcome. The
`console.error` logging side effect is not modelled. -/
def createGitHubIssueExecute (githubToken : Option String) (api : IssueApi)
    (args : ToolArgs) : Except String ToolOutcome × List ApiCall :=
  if !(truthy githubToken) then
    (Except.error githubTokenMissingMsg, [])
  else
    let parts := splitSlash args.repository
    let owner := parts[0]?
    let repo := parts[1]?
    if !(truthy owner) || !(truthy repo) then
      (Except.ok { success := false, url := none,
                   message := "Failed to create issue: " ++ invalidRepoFormatMsg,
                   error := some invalidRepoFormatMsg }, [])
    else
      let call : ApiCall :=
        { owner := owner.getD "", repo := repo.getD "",
          title := args.title, body := args.body }
      match api call with
      | Except.ok htmlUrl =>
          (Except.ok { success := true, url := some htmlUrl,
                       message := "Issue created successfully in " ++ args.repository ++ "!",
                       error := none }, [call])
      | Except.error e =>
          (Except.ok { success := false, url := none,
                       message := "Failed to create issue: " ++ e,
                       error := some e }, [call])

/-- Result record returned by `generateText`: the plain text response, the
list of tool calls the model made, and the list of tool results produced by
executing them (each element embeds the `.result` field the source reads
after its cast). -/
structure GenResult where
  text : String
  toolCalls : List ToolArgs
  toolResults : List ToolOutcome
deriving Repr

/-- The language-model inference: from the prompt to either a thrown error
(`Except.error`, its message) or a `GenResult`. -/
def GenFn := String → Except String GenResult

/-- Fixed reply when the incoming request text is falsy. -/
def promptForDetailsMsg : String :=
  "Please provide details about the issue you want to create."

/-- Prefix of the text produced by the top-level catch clause of the
handler. -/
def errorPrefixMsg : String :=
  "An error occurred while processing your request: "

/-- Message of the TypeError the runtime raises when the source reads
`issueResult.success` while `issueResult` is `undefined` (the exact runtime
wording is irrelevant to every property below; only the fact that an
exception is thrown matters). -/
def undefinedSuccessReadMsg : String :=
  "Cannot read properties of undefined reading success"

/-- Embedding of the body of the try block after `generateText` has
returned: the final-response decision procedure. `Except.error` models an
exception escaping the try block (the read of `.success` on the undefined
last element of an empty `toolResults` array). The source expression
`result.toolResults[result.toolResults.length - 1]` is the last element of
the list, hence `List.getLast?`. The condition
`issueResult.success && issueResult.url` tests JavaScript truthiness of the
url field, hence `truthy`. -/
def resolveToolText (result : GenResult) : Except String String :=
  if result.toolCalls.length = 0 then
    Except.ok result.text
  else
    match result.toolResults.getLast? with
    | none => Except.error undefinedSuccessReadMsg
    | some issueResult =>
        if issueResult.success && truthy issueResult.url then
          Except.ok (issueResult.message ++ " View it at: " ++ issueResult.url.getD "")
        else
          Except.ok issueResult.message

/-- Embedding of the default exported handler of
src/agents/github-interview-agent/index.ts. `requestText` models
`await req.data.text()` (`none` is a null/undefined body); `genFn` models
`generateText` under the fixed system instruction, tool set and step cap.
Returns the response text together with the list of prompts sent to the
model, making the model-invocation side effect observable. The single tool
available to the model runs only inside a model invocation, so an empty
prompt list also means no tool call was made. -/
def Agent (requestText : Option String) (genFn : GenFn) : String × List String :=
  if !(truthy requestText) then
    (promptForDetailsMsg, [])
  else
    let prompt := requestText.getD ""
    match genFn prompt >>= resolveToolText with
    | Except.ok t => (t, [prompt])
    | Except.error e => (errorPrefixMsg ++ e, [prompt])

/-- One message of a chat-completion request. -/
structure ChatMessage where
  role : String
  content : String
deriving Repr, DecidableEq

/-- Embedding of the messages array the simple completion relay sends: one
user message whose content is
`(await req.data.text()) ?? "Say this is a test"`. The `??` operator
substitutes the fallback only when the left side is null/undefined
(`none`); an empty string is kept as is, hence `Option.getD`. -/
def relayMessages (requestText : Option String) : List ChatMessage :=
  [{ role := "user", content := requestText.getD "Say this is a test" }]

/-- Embedding of the whole relay handler: `complete` models the
chat-completion API, returning the list of choices, each carrying an
optional message content (`none` for a null content or absent message).
The response is the first choice content, or "Something went wrong" when
absent. -/
def relayAgent (requestText : Option String)
    (complete : List ChatMessage → List (Option String)) : String :=
  let choices := complete (relayMessages requestText)
  (Option.join choices[0]?).getD "Something went wrong"

/-- A concrete issue API that always succeeds with a fixed issue URL. -/
def okApi : IssueApi := fun _ => Except.ok "https://github.com/a/b/issues/1"

/-- A concrete issue API that always fails, with an error message that
itself contains the substring "View it at:". -/
def badApi : IssueApi := fun _ => Except.error "boom View it at: x"

/-- Concrete tool arguments with a well-formed repository. -/
def someArgs : ToolArgs := { repository := "a/b", title := "t", body := "b" }

/-- A model behavior that always returns the given result record. -/
def constGen (g : GenResult) : GenFn := fun _ => Except.ok g

/-- A model behavior that is never consulted (used to witness that the
resolver result does not depend on it for falsy request text). -/
def neverGen : GenFn := fun _ => Except.error "model should not be called"

/-- Last tool outcome of the C3 counterexample interaction: successful, and
the url field is present but holds the empty string. -/
def C3cexOutcome : ToolOutcome :=
  { success := true, url := some "", message := "m", error := none }

/-- C3 counterexample interaction: one tool call, one tool result. -/
def C3cexGen : GenResult :=
  { text := "unused", toolCalls := [someArgs], toolResults := [C3cexOutcome] }

/-- Last tool outcome of the C3 witness interaction. -/
def C3wOutcome : ToolOutcome :=
  { success := true, url := some "https://u", message := "done", error := none }

/-- Interaction record of the C3 witness. -/
def C3wGen : GenResult :=
  { text := "x", toolCalls := [someArgs], toolResults := [C3wOutcome] }

/-- Last tool outcome of the C4 counterexample interaction: a failure whose
message itself contains "View it at:" (exactly the outcome the tool handler
produces when the API raises an error containing that substring). -/
def C4cexOutcome : ToolOutcome :=
  { success := false, url := none,
    message := "Failed to create issue: boom View it at: x",
    error := some "boom View it at: x" }

/-- C4 counterexample interaction: one tool call, one failed tool result. -/
def C4cexGen : GenResult :=
  { text := "unusedB", toolCalls := [someArgs], toolResults := [C4cexOutcome] }

/-- Interaction record of the C4 witness: one tool call, one plain failure
result. -/
def C4wGen : GenResult :=
  { text := "y", toolCalls := [someArgs],
    toolResults := [{ success := false, url := none,
                      message := "Failed to create issue: nope",
                      error := some "nope" }] }

/-- First interaction of the C5 witness: two tool results, the first one a
failure. -/
def C5gA : GenResult :=
  { text := "t5", toolCalls := [someArgs],
    toolResults := [{ success := false, url := none, message := "first failed",
                      error := some "e1" },
                    C3wOutcome] }

/-- Second interaction of the C5 witness: same text, calls and last result,
but a different first result. -/
def C5gB : GenResult :=
  { text := "t5", toolCalls := [someArgs],
    toolResults := [{ success := true, url := some "https://other",
                      message := "first ok", error := none },
                    C3wOutcome] }

/-- Interaction record of the C6 witness: a clarification answer, zero tool
calls. -/
def C6wGen : GenResult :=
  { text := "Which repository should the issue go to?", toolCalls := [],
    toolResults := [] }

/-- Outcome of the C9 witness: the result of the concrete successful
execution on repository "a/b". -/
def C9wOutcome : ToolOutcome :=
  { success := true, url := some "https://github.com/a/b/issues/1",
    message := "Issue created successfully in a/b!", error := none }

/-- Interaction record of the C10 witness: one tool call recorded, no tool
result. -/
def C10wGen : GenResult :=
  { text := "z", toolCalls := [someArgs], toolResults := [] }

/-- A string with a non-empty left part stays non-empty under append. -/
theorem append_left_ne_empty (a b : String) (ha : a ≠ "") : a ++ b ≠ "" := by
  intro hab
  apply ha
  have hd : a.data ++ b.data = [] := by
    have h2 := congrArg String.data hab
    simpa [String.data_append] using h2
  have h3 : a.data = [] := (List.append_eq_nil.mp hd).1
  cases a
  simp_all

/-- C1 counterexample: the repository string "a/b/c" has three
slash-separated segments, yet with a configured token the handler accepts
it (JavaScript array destructuring takes the first two segments "a" and
"b", both truthy), calls the API once with owner "a" and repo "b", and
returns a success outcome, contradicting the claimed success=false outcome
with no API call. -/
theorem C1_counterexample :
    (createGitHubIssueExecute (some "tok") okApi
      { repository := "a/b/c", title := "t", body := "b" }).2 ≠ [] ∧
    (createGitHubIssueExecute (some "tok") okApi
      { repository := "a/b/c", title := "t", body := "b" }).1 =
      Except.ok { success := true, url := some "https://github.com/a/b/issues/1",
                  message := "Issue created successfully in a/b/c!", error := none } :=
  ⟨by decide, rfl⟩

/-- C1 (amended): with a configured (truthy) token, for every repository
string whose first or second slash-segment is missing or empty, the
handler returns success=false with the message "Failed to create issue:
Invalid repository format. Please use the format: owner/repo" (which
contains "Invalid repository format") and issues no API call. Strings with
more than two segments whose first two are non-empty, such as "a/b/c",
pass the validation and the API is called. -/
theorem C1_invalid_repository_rejected (tok : Option String) (api : IssueApi)
    (args : ToolArgs) (htok : truthy tok = true)
    (hbad : truthy (splitSlash args.repository)[0]? = false ∨
            truthy (splitSlash args.repository)[1]? = false) :
    createGitHubIssueExecute tok api args =
      (Except.ok { success := false, url := none,
                   message := "Failed to create issue: " ++ invalidRepoFormatMsg,
                   error := some invalidRepoFormatMsg }, []) ∧
    ∃ pre post, "Failed to create issue: " ++ invalidRepoFormatMsg =
      pre ++ "Invalid repository format" ++ post := by
  refine ⟨?_, "Failed to create issue: ", ". Please use the format: owner/repo", rfl⟩
  rcases hbad with h | h <;> simp [createGitHubIssueExecute, htok, h]

/-- C1 witness: the amended theorem applied at the concrete slash-free
repository "noslash" with a configured token. -/
theorem C1_invalid_repository_rejected_witness :
    createGitHubIssueExecute (some "ghp") okApi
      { repository := "noslash", title := "t", body := "b" } =
      (Except.ok { success := false, url := none,
                   message := "Failed to create issue: " ++ invalidRepoFormatMsg,
                   error := some invalidRepoFormatMsg }, []) ∧
    ∃ pre post, "Failed to create issue: " ++ invalidRepoFormatMsg =
      pre ++ "Invalid repository format" ++ post :=
  C1_invalid_repository_rejected (some "ghp") okApi
    { repository := "noslash", title := "t", body := "b" }
    (by decide) (Or.inr (by decide))

/-- C2 counterexample: with GITHUB_TOKEN unset the handler throws the
configuration error past its own boundary (the check precedes the
try/catch), instead of returning a ToolOutcome: the claim that the execute
function never throws for a missing credential is false. -/
theorem C2_counterexample :
    (createGitHubIssueExecute none okApi someArgs).1 =
      Except.error githubTokenMissingMsg :=
  rfl

/-- C2 (amended): whenever the GITHUB_TOKEN credential is configured
(truthy), the execute function never throws past its own boundary: it
always returns a ToolOutcome, and every failure outcome carries an error
string e with message "Failed to create issue: " ++ e. A missing or empty
GITHUB_TOKEN instead throws, since that check precedes the try/catch. -/
theorem C2_no_throw_with_token (tok : Option String) (api : IssueApi)
    (args : ToolArgs) (htok : truthy tok = true) :
    ∃ out : ToolOutcome, (createGitHubIssueExecute tok api args).1 = Except.ok out ∧
      (out.success = false → ∃ e, out.error = some e ∧
        out.message = "Failed to create issue: " ++ e) := by
  unfold createGitHubIssueExecute
  rw [htok]
  simp only [Bool.not_true, Bool.false_eq_true, if_false]
  split
  · exact ⟨_, rfl, fun _ => ⟨invalidRepoFormatMsg, rfl, rfl⟩⟩
  · split
    · exact ⟨_, rfl, fun hfalse => nomatch hfalse⟩
    · exact ⟨_, rfl, fun _ => ⟨_, rfl, rfl⟩⟩

/-- C2 witness: the amended theorem applied at a configured token, the
always-failing API and concrete well-formed arguments. -/
theorem C2_no_throw_with_token_witness :
    ∃ out : ToolOutcome,
      (createGitHubIssueExecute (some "ghp2") badApi someArgs).1 = Except.ok out ∧
      (out.success = false → ∃ e, out.error = some e ∧
        out.message = "Failed to create issue: " ++ e) :=
  C2_no_throw_with_token (some "ghp2") badApi someArgs (by decide)

/-- C3 counterexample: the last tool outcome has success=true and a present
url (the empty string), yet the resolver returns just "m": JavaScript
truthiness treats the empty url as absent, so the claimed
"{message} View it at: {url}" text is not produced. -/
theorem C3_counterexample :
    C3cexOutcome.success = true ∧ C3cexOutcome.url = some "" ∧
    Agent (some "req") (constGen C3cexGen) = ("m", ["req"]) ∧
    ("m" : String) ≠ C3cexOutcome.message ++ " View it at: " ++ "" :=
  ⟨rfl, rfl, rfl, by decide⟩

/-- C3 (amended): for every interaction with at least one tool call whose
last tool outcome has success=true and a present NON-EMPTY url u, the
resolver returns exactly "{message} View it at: {u}". -/
theorem C3_success_with_url (rt : Option String) (genFn : GenFn) (g : GenResult)
    (o : ToolOutcome) (u : String) (hrt : truthy rt = true)
    (hgen : genFn (rt.getD "") = Except.ok g) (hcalls : g.toolCalls ≠ [])
    (hlast : g.toolResults.getLast? = some o) (hsucc : o.success = true)
    (hurl : o.url = some u) (hne : u ≠ "") :
    (Agent rt genFn).1 = o.message ++ " View it at: " ++ u := by
  have hdata : u.data ≠ [] := fun hd => hne (by cases u; simp_all)
  unfold Agent
  rw [hrt]
  simp only [Bool.not_true, Bool.false_eq_true, if_false]
  rw [show (genFn (rt.getD "") >>= resolveToolText) = resolveToolText g by
    rw [hgen]; rfl]
  unfold resolveToolText
  rw [if_neg (by simp [hcalls]), hlast]
  simp only [hsucc, hurl, truthy, Bool.true_and, Option.getD_some]
  rw [if_pos (by simp [hdata])]

/-- C3 witness: the amended theorem applied at a concrete interaction with
a successful outcome and non-empty url. -/
theorem C3_success_with_url_witness :
    (Agent (some "req") (constGen C3wGen)).1 = "done" ++ " View it at: " ++ "https://u" :=
  C3_success_with_url (some "req") (constGen C3wGen) C3wGen C3wOutcome "https://u"
    (by decide) rfl (by decide) rfl rfl rfl (by decide)

/-- C4 counterexample: a failure outcome reachable from the tool handler
(badApi raises "boom View it at: x") makes the resolver return a text that
contains the substring "View it at:", refuting the claim that the returned
text never contains it. The resolver still returns exactly the outcome
message; the substring comes from the message itself. -/
theorem C4_counterexample :
    (createGitHubIssueExecute (some "tok") badApi someArgs).1 = Except.ok C4cexOutcome ∧
    C4cexOutcome.success = false ∧
    (Agent (some "req") (constGen C4cexGen)).1 =
      "Failed to create issue: boom " ++ "View it at:" ++ " x" :=
  ⟨rfl, rfl, rfl⟩

/-- C4 (amended): for every interaction with at least one tool call whose
last tool outcome has success=false, the resolver returns exactly that
outcome message; the resolver appends no "View it at:" text of its own, so
the returned text contains that substring only when the message does. -/
theorem C4_failure_returns_message (rt : Option String) (genFn : GenFn)
    (g : GenResult) (o : ToolOutcome) (hrt : truthy rt = true)
    (hgen : genFn (rt.getD "") = Except.ok g) (hcalls : g.toolCalls ≠ [])
    (hlast : g.toolResults.getLast? = some o) (hfail : o.success = false) :
    (Agent rt genFn).1 = o.message := by
  unfold Agent
  rw [hrt]
  simp only [Bool.not_true, Bool.false_eq_true, if_false]
  rw [show (genFn (rt.getD "") >>= resolveToolText) = resolveToolText g by
    rw [hgen]; rfl]
  unfold resolveToolText
  rw [if_neg (by simp [hcalls]), hlast]
  simp [hfail]

/-- C4 witness: the amended theorem applied at a concrete failed
interaction. -/
theorem C4_failure_returns_message_witness :
    (Agent (some "req") (constGen C4wGen)).1 = "Failed to create issue: nope" :=
  C4_failure_returns_message (some "req") (constGen C4wGen) C4wGen
    { success := false, url := none, message := "Failed to create issue: nope",
      error := some "nope" }
    (by decide) rfl (by decide) rfl rfl

/-- C5: with two or more tool results, the resolver final output depends
only on the interaction text, the tool-call list and the LAST tool result:
two interactions agreeing on those (in particular, differing in any earlier
tool result) produce the same response. -/
theorem C5_last_result_authoritative (rt : Option String) (g1 g2 : GenResult)
    (htext : g1.text = g2.text) (hcalls : g1.toolCalls = g2.toolCalls)
    (_hlen1 : 2 ≤ g1.toolResults.length) (_hlen2 : 2 ≤ g2.toolResults.length)
    (hlast : g1.toolResults.getLast? = g2.toolResults.getLast?) :
    Agent rt (constGen g1) = Agent rt (constGen g2) := by
  have hres : resolveToolText g1 = resolveToolText g2 := by
    unfold resolveToolText
    rw [htext, hcalls, hlast]
  unfold Agent constGen
  rw [show (Except.ok g1 >>= resolveToolText : Except String String) =
        resolveToolText g1 from rfl,
      show (Except.ok g2 >>= resolveToolText : Except String String) =
        resolveToolText g2 from rfl, hres]

/-- C5 witness: the theorem applied at two concrete interactions differing
only in their first tool result. -/
theorem C5_last_result_authoritative_witness :
    Agent (some "req") (constGen C5gA) = Agent (some "req") (constGen C5gB) :=
  C5_last_result_authoritative (some "req") C5gA C5gB rfl rfl
    (by decide) (by decide) rfl

/-- C6: whenever the request text is truthy and the model returns a result
with zero tool calls, the resolver returns the model text verbatim. -/
theorem C6_no_tool_calls_verbatim (rt : Option String) (genFn : GenFn)
    (g : GenResult) (hrt : truthy rt = true)
    (hgen : genFn (rt.getD "") = Except.ok g) (hcalls : g.toolCalls = []) :
    (Agent rt genFn).1 = g.text := by
  unfold Agent
  rw [hrt]
  simp only [Bool.not_true, Bool.false_eq_true, if_false]
  rw [show (genFn (rt.getD "") >>= resolveToolText) = resolveToolText g by
    rw [hgen]; rfl]
  unfold resolveToolText
  rw [if_pos (by simp [hcalls])]

/-- C6 witness: the theorem applied at a concrete zero-tool-call
interaction. -/
theorem C6_no_tool_calls_verbatim_witness :
    (Agent (some "open an issue") (constGen C6wGen)).1 =
      "Which repository should the issue go to?" :=
  C6_no_tool_calls_verbatim (some "open an issue") (constGen C6wGen) C6wGen
    (by decide) rfl rfl

/-- C7: for every falsy (absent or empty) request text and EVERY model
behavior, the resolver returns the fixed prompt-for-details message and the
list of prompts sent to the model is empty: no model invocation is made,
hence also no tool call (the sole tool only runs inside a model
invocation). -/
theorem C7_falsy_request_short_circuit (rt : Option String) (genFn : GenFn)
    (hrt : truthy rt = false) :
    Agent rt genFn = (promptForDetailsMsg, []) := by
  unfold Agent
  rw [hrt]
  rfl

/-- C7 witness: the theorem applied at the empty request text and a model
behavior that would fail if consulted. -/
theorem C7_falsy_request_short_circuit_witness :
    Agent (some "") neverGen = (promptForDetailsMsg, []) :=
  C7_falsy_request_short_circuit (some "") neverGen (by decide)

/-- C8 counterexample: for the EMPTY (but present) request text, the relay
sends the empty string as the user content, not the fallback: the nullish
coalescing operator only substitutes "Say this is a test" for a
null/undefined text, so the claim fails for empty request text. -/
theorem C8_counterexample :
    relayMessages (some "") = [{ role := "user", content := "" }] ∧
    relayMessages (some "") ≠ [{ role := "user", content := "Say this is a test" }] :=
  ⟨rfl, by decide⟩

/-- C8 (amended): for an ABSENT (null/undefined) request text the relay
calls the chat-completion API with the sole user message content
"Say this is a test"; an empty-string request text is passed through
unchanged. -/
theorem C8_absent_request_fallback :
    relayMessages none = [{ role := "user", content := "Say this is a test" }] :=
  rfl

/-- C9: every ToolOutcome the tool handler returns (rather than throws)
has a non-empty message; when success=true the url is present and the error
absent; when success=false the error is present and the url absent. -/
theorem C9_outcome_shape (tok : Option String) (api : IssueApi)
    (args : ToolArgs) (out : ToolOutcome)
    (h : (createGitHubIssueExecute tok api args).1 = Except.ok out) :
    out.message ≠ "" ∧
    (out.success = true → out.url.isSome = true ∧ out.error = none) ∧
    (out.success = false → out.error.isSome = true ∧ out.url = none) := by
  unfold createGitHubIssueExecute at h
  split at h
  · exact nomatch h
  · simp only [] at h
    split at h
    · cases h
      exact ⟨by decide, by simp, by simp⟩
    · split at h
      · cases h
        exact ⟨append_left_ne_empty _ _
                 (append_left_ne_empty _ _ (by decide)), by simp, by simp⟩
      · cases h
        exact ⟨append_left_ne_empty _ _ (by decide), by simp, by simp⟩

/-- C9 witness: the theorem applied at the concrete successful execution on
repository "a/b", whose outcome is `C9wOutcome`. -/
theorem C9_outcome_shape_witness :
    C9wOutcome.message ≠ "" ∧
    (C9wOutcome.success = true → C9wOutcome.url.isSome = true ∧
      C9wOutcome.error = none) ∧
    (C9wOutcome.success = false → C9wOutcome.error.isSome = true ∧
      C9wOutcome.url = none) :=
  C9_outcome_shape (some "ghp9") okApi someArgs C9wOutcome rfl

/-- C10: whenever the request is truthy and the model result has at least
one tool call but an empty tool-results list, the resolver does not crash:
the read of the success field of the missing last result throws, the
top-level catch converts it, and the response text starts with "An error
occurred while processing your request: ". -/
theorem C10_empty_results_caught (rt : Option String) (genFn : GenFn)
    (g : GenResult) (hrt : truthy rt = true)
    (hgen : genFn (rt.getD "") = Except.ok g) (hcalls : g.toolCalls ≠ [])
    (hres : g.toolResults = []) :
    ∃ suffix, (Agent rt genFn).1 = errorPrefixMsg ++ suffix := by
  refine ⟨undefinedSuccessReadMsg, ?_⟩
  unfold Agent
  rw [hrt]
  simp only [Bool.not_true, Bool.false_eq_true, if_false]
  rw [show (genFn (rt.getD "") >>= resolveToolText) = resolveToolText g by
    rw [hgen]; rfl]
  unfold resolveToolText
  rw [if_neg (by simp [hcalls]), hres]
  rfl

/-- C10 witness: the theorem applied at a concrete interaction with a tool
call but no tool result. -/
theorem C10_empty_results_caught_witness :
    ∃ suffix, (Agent (some "req") (constGen C10wGen)).1 = errorPrefixMsg ++ suffix :=
  C10_empty_results_caught (some "req") (constGen C10wGen) C10wGen
    (by decide) rfl (by decide) rfl

end GitHubInterviewAgent
